import Mathlib

/-!
Shallow embedding of `src/app.py` from rewindio/aws-eb-update-notifier.

The program scans Elastic Beanstalk applications and environments, compares
each environment's platform version against the latest available version for
its platform (via `packaging.version.parse`), and posts a Slack message for
each stale environment.

External collaborators (boto3 clients, SSM, IAM, Slack, `os.environ`) are
modelled as a `World` record of responses.  Python `ClientError` outcomes are
`Except.error code`; exceptions that the code does NOT catch (`IndexError`,
`TypeError`, `KeyError`) are modelled as `PyError` values that abort the run.
Observable behaviour is an event trace: `print` output, upstream
`list_platform_versions` calls, `os.environ` reads, and Slack posts.
-/

namespace EBNotifier

/-- An Elastic Beanstalk environment record, with the fields the code reads
from `describe_environments` responses. -/
structure Env where
  environmentName : String
  environmentId : String
  platformArn : String
deriving DecidableEq, Repr

/-- The payload of a `chat_postMessage` call: the channel plus every dynamic
value interpolated into the `blocks` argument in the source. -/
structure SlackMessage where
  channel : String
  consoleUrl : String
  application : String
  environment : String
  accountAlias : String
  region : String
  platformName : String
  currentVersion : String
  latestVersion : String
deriving DecidableEq, Repr

/-- Python exceptions that the source code never catches and that therefore
propagate out of `lambda_handler`. -/
inductive PyError where
  | indexError
  | typeError
  | keyError (key : String)
deriving DecidableEq, Repr

/-- Observable events of one run. -/
inductive Event where
  | log (msg : String)
  | platformQuery (platformName : String)
  | configRead (key : String)
  | slackPost (msg : SlackMessage)
deriving DecidableEq, Repr

/-- Responses of all external collaborators during one run.  `Except.error c`
models a botocore `ClientError` whose `response['Error']['Code']` is `c`. -/
structure World where
  describeApplications : Except String (List String)
  describeEnvironments : String → Except String (List Env)
  listPlatformVersions : String → Except String (List String)
  getParameter : String → Except String String
  listAccountAliases : Except String (List String)
  osEnviron : String → Option String
  regionName : String
  slackError : Option String
  legacyCmp : String → String → Bool

/-- Python `str(x)` for `x : Optional[str]`. -/
def pyStr : Option String → String
  | none => "None"
  | some s => s

/-- Split a character list at every occurrence of `sep`, keeping empty
groups, exactly like Python `str.split` with a one-character separator. -/
def splitChars (sep : Char) : List Char → List (List Char)
  | [] => [[]]
  | c :: cs =>
    let r := splitChars sep cs
    if c = sep then [] :: r
    else
      match r with
      | [] => [[c]]
      | g :: gs => (c :: g) :: gs

/-- Python `s.split(sep)` for a one-character separator `sep`. -/
def pySplit (sep : Char) (s : String) : List String :=
  (splitChars sep s.data).map (fun cs => String.mk cs)

/-- The numeric value of a decimal digit character, if it is one. -/
def digitVal? (c : Char) : Option Nat :=
  if '0' ≤ c ∧ c ≤ '9' then some (c.toNat - '0'.toNat) else none

/-- Accumulate decimal digits left to right; fails on a non-digit. -/
def natOfDigitsAux : List Char → Nat → Option Nat
  | [], acc => some acc
  | c :: cs, acc =>
    match digitVal? c with
    | none => none
    | some d => natOfDigitsAux cs (acc * 10 + d)

/-- The value of a nonempty string of decimal digits (the `[0-9]+` release
components accepted by `packaging`'s version regex); fails otherwise. -/
def natOfDigits : List Char → Option Nat
  | [] => none
  | cs => natOfDigitsAux cs 0

/-- The numeric components of a dotted version string, when every
dot-separated component is a decimal numeral (`packaging`'s release segment
for plain release versions such as `"2.11.10"`). -/
def releaseComponents (s : String) : Option (List Nat) :=
  (splitChars '.' s.data).mapM natOfDigits

/-- Drop trailing zero components, as `packaging._cmpkey` does before
comparing release tuples (so `"2.0"` and `"2.0.0"` compare equal). -/
def stripTrailingZeros (l : List Nat) : List Nat :=
  (l.reverse.dropWhile (fun x => x = 0)).reverse

/-- The comparison key `packaging` assigns to a plain dotted-numeric release
version. -/
def releaseKey (s : String) : Option (List Nat) :=
  (releaseComponents s).map stripTrailingZeros

/-- Python tuple `<` on tuples of ints (lexicographic, shorter tuple that is
a prefix counts as smaller). -/
def listLtNat : List Nat → List Nat → Bool
  | [], [] => false
  | [], _ :: _ => true
  | _ :: _, [] => false
  | a :: as, b :: bs => if a < b then true else if b < a then false else listLtNat as bs

/-- Model of `version.parse(latest) > version.parse(current)` at line 116.
`latest` is `None` when the lookup failed, and `version.parse(None)` raises
`TypeError` (the `packaging` regex rejects non-strings).  For plain
dotted-numeric versions `packaging` compares stripped release tuples
componentwise; for any other string shape the result is left opaque in the
world (`legacyCmp`), since no claim depends on it. -/
def version_parse_gt (w : World) (latest : Option String) (current : String) :
    Except PyError Bool :=
  match latest with
  | none => .error .typeError
  | some l =>
    match releaseKey l, releaseKey current with
    | some kl, some kc => .ok (listLtNat kc kl)
    | _, _ => .ok (w.legacyCmp l current)

/-- Model of `get_platform_version` (lines 71-73):
`platform_arn.split(':')[5].split('/')[2]`, where a missing index raises
`IndexError`. -/
def get_platform_version (platform_arn : String) : Except PyError String :=
  match (pySplit ':' platform_arn)[5]? with
  | none => .error .indexError
  | some seg =>
    match (pySplit '/' seg)[2]? with
    | none => .error .indexError
    | some v => .ok v

/-- Model of `get_platform_name` (lines 75-77):
`platform_arn.split(':')[5].split('/')[1]`. -/
def get_platform_name (platform_arn : String) : Except PyError String :=
  match (pySplit ':' platform_arn)[5]? with
  | none => .error .indexError
  | some seg =>
    match (pySplit '/' seg)[1]? with
    | none => .error .indexError
    | some v => .ok v

/-- Model of `get_aws_account_alias` (lines 17-25).  A `ClientError` is
caught and logged (returning `None`); an empty `AccountAliases` list makes
`[0]` raise `IndexError`, which is NOT caught (`except ClientError` only). -/
def get_aws_account_alias (w : World) : List Event × Except PyError (Option String) :=
  match w.listAccountAliases with
  | .error code =>
      ([.log ("Unable to get current aws account ID: " ++ code)], .ok none)
  | .ok [] => ([], .error .indexError)
  | .ok (a :: _) => ([], .ok (some a))

/-- Model of `get_slack_token` (lines 27-36).  A `ClientError` is caught and
logged, returning `None`. -/
def get_slack_token (w : World) (token_path : String) : List Event × Option String :=
  match w.getParameter token_path with
  | .error code =>
      ([.log ("Unable to retrieve parameter from parameter store: " ++ code)], none)
  | .ok v => ([], some v)

/-- Model of `get_latest_platform_version` (lines 38-69).  The cache is an
association list.  On a hit no upstream call is made.  On a miss the code
calls `list_platform_versions` (a `platformQuery` event): a `ClientError` is
caught and logged, returning `None` without caching; an empty
`PlatformSummaryList` makes `[0]` raise an uncaught `IndexError`; otherwise
the first entry's version is cached and returned. -/
def get_latest_platform_version (w : World) (cache : List (String × String))
    (platform_name : String) :
    List Event × Except PyError (Option String × List (String × String)) :=
  match cache.lookup platform_name with
  | some v => ([], .ok (some v, cache))
  | none =>
    match w.listPlatformVersions platform_name with
    | .error code =>
        ([.platformQuery platform_name,
          .log ("Unable to retrieve latest platform list: " ++ code)],
         .ok (none, cache))
    | .ok [] => ([.platformQuery platform_name], .error .indexError)
    | .ok (v :: _) =>
        ([.platformQuery platform_name], .ok (some v, (platform_name, v) :: cache))

/-- The body of the stale branch of `lambda_handler` (lines 118-185, the
code under `if version.parse(latest) > version.parse(current)` after its
first log line): read `os.environ['SLACK_TOKEN_SSM_PATH']` (a missing key
raises `KeyError`), fetch the Slack token, read `os.environ['SLACK_CHANNEL']`
(again `KeyError` if missing), and, when a token was obtained, build the
message — calling `get_aws_account_alias` while constructing the `blocks`;
an alias of `None` concatenated into the text raises `TypeError` — and post
it, catching only `SlackApiError`. -/
def notify_slack (w : World) (eb_application_name environment_name environment_id
    platform_name current_platform_version latest_str : String) :
    List Event × Except PyError Unit :=
  let eb_console_url := "https://console.aws.amazon.com/elasticbeanstalk/home?region=" ++ w.regionName ++ "#/environment/dashboard?applicationName=" ++ eb_application_name ++ "&environmentId=" ++ environment_id
  match w.osEnviron "SLACK_TOKEN_SSM_PATH" with
  | none =>
      ([.configRead "SLACK_TOKEN_SSM_PATH"], .error (.keyError "SLACK_TOKEN_SSM_PATH"))
  | some token_path =>
    match get_slack_token w token_path with
    | (evt, slack_token) =>
      match w.osEnviron "SLACK_CHANNEL" with
      | none =>
          ([Event.configRead "SLACK_TOKEN_SSM_PATH"] ++ evt ++ [.configRead "SLACK_CHANNEL"],
           .error (.keyError "SLACK_CHANNEL"))
      | some slack_channel =>
        let evPre := [Event.configRead "SLACK_TOKEN_SSM_PATH"] ++ evt ++ [Event.configRead "SLACK_CHANNEL"]
        match slack_token with
        | none => (evPre, .ok ())
        | some _tok =>
          let e4 := Event.log "Posting notification to Slack"
          match get_aws_account_alias w with
          | (eva, .error err) => (evPre ++ [e4] ++ eva, .error err)
          | (eva, .ok none) => (evPre ++ [e4] ++ eva, .error .typeError)
          | (eva, .ok (some account_alias)) =>
            let msg : SlackMessage :=
              { channel := slack_channel
                consoleUrl := eb_console_url
                application := eb_application_name
                environment := environment_name
                accountAlias := account_alias
                region := w.regionName
                platformName := platform_name
                currentVersion := current_platform_version
                latestVersion := latest_str }
            match w.slackError with
            | none => (evPre ++ [e4] ++ eva ++ [.slackPost msg], .ok ())
            | some errcode =>
                (evPre ++ [e4] ++ eva ++ [.slackPost msg, .log ("Error posting to Slack: " ++ errcode)],
                 .ok ())

/-- The body of the inner `for environment in environments['Environments']`
loop of `lambda_handler` (lines 104-186), for one environment.  Returns the
events emitted and either the updated cache or the uncaught exception that
aborts the run. -/
def process_environment (w : World) (eb_application_name : String)
    (cache : List (String × String)) (environment : Env) :
    List Event × Except PyError (List (String × String)) :=
  let environment_name := environment.environmentName
  let environment_id := environment.environmentId
  let e0 := Event.log ("EB environment found: " ++ environment_name ++ "(" ++ environment_id ++ ")")
  match get_platform_name environment.platformArn with
  | .error err => ([e0], .error err)
  | .ok platform_name =>
    match get_platform_version environment.platformArn with
    | .error err => ([e0], .error err)
    | .ok current_platform_version =>
      let e1 := Event.log ("Current platform: " ++ platform_name ++ " Platform version: " ++ current_platform_version)
      match get_latest_platform_version w cache platform_name with
      | (evq, .error err) => ([e0, e1] ++ evq, .error err)
      | (evq, .ok (latest_platform_version, cache')) =>
        let e2 := Event.log ("Latest available version for " ++ platform_name ++ " is " ++ pyStr latest_platform_version)
        match version_parse_gt w latest_platform_version current_platform_version with
        | .error err => ([e0, e1] ++ evq ++ [e2], .error err)
        | .ok false =>
            ([e0, e1] ++ evq ++
              [e2, .log ("Environment " ++ environment_name ++ " is running the latest version (" ++ pyStr latest_platform_version ++ ")")],
             .ok cache')
        | .ok true =>
          let e3 := Event.log ("A newer version (" ++ pyStr latest_platform_version ++ ") is available for " ++ environment_name)
          match notify_slack w eb_application_name environment_name environment_id
              platform_name current_platform_version (pyStr latest_platform_version) with
          | (evn, .error err) => ([e0, e1] ++ evq ++ [e2, e3] ++ evn, .error err)
          | (evn, .ok _) => ([e0, e1] ++ evq ++ [e2, e3] ++ evn, .ok cache')

/-- The inner `for` loop over one application's environments; an uncaught
exception aborts the whole run, so later environments are not processed. -/
def process_environments (w : World) (eb_application_name : String) :
    List (String × String) → List Env →
    List Event × Except PyError (List (String × String))
  | cache, [] => ([], .ok cache)
  | cache, e :: rest =>
    match process_environment w eb_application_name cache e with
    | (ev, .error err) => (ev, .error err)
    | (ev, .ok cache') =>
      match process_environments w eb_application_name cache' rest with
      | (ev', r') => (ev ++ ev', r')

/-- One iteration of the outer `for application in ...` loop (lines 95-103):
log the application, list its environments; a `ClientError` there is caught
and logged and the application is skipped (`if environments:` is false). -/
def process_application (w : World) (cache : List (String × String))
    (eb_application_name : String) :
    List Event × Except PyError (List (String × String)) :=
  let e0 := Event.log ("EB application found: " ++ eb_application_name)
  match w.describeEnvironments eb_application_name with
  | .error code =>
      ([e0, .log ("Unable to obtain list of EB environments: " ++ code)], .ok cache)
  | .ok envs =>
    match process_environments w eb_application_name cache envs with
    | (ev, r) => (e0 :: ev, r)

/-- The outer loop over all applications; the cache is shared across
applications (it is a module-level global in the source). -/
def process_applications (w : World) :
    List (String × String) → List String →
    List Event × Except PyError (List (String × String))
  | cache, [] => ([], .ok cache)
  | cache, a :: rest =>
    match process_application w cache a with
    | (ev, .error err) => (ev, .error err)
    | (ev, .ok cache') =>
      match process_applications w cache' rest with
      | (ev', r') => (ev ++ ev', r')

/-- Model of `lambda_handler` (lines 79-186): list applications (a
`ClientError` is caught, logged, and ends the run normally), then process
each application with an initially empty cache. -/
def lambda_handler (w : World) : List Event × Except PyError Unit :=
  match w.describeApplications with
  | .error code =>
      ([.log ("Unable to obtain list of EB applications: " ++ code)], .ok ())
  | .ok apps =>
    match process_applications w [] apps with
    | (ev, .error err) => (ev, .error err)
    | (ev, .ok _) => (ev, .ok ())

instance {ε α : Type} [DecidableEq ε] [DecidableEq α] : DecidableEq (Except ε α) :=
  fun a b =>
    match a, b with
    | .error x, .error y =>
      if h : x = y then .isTrue (by rw [h]) else .isFalse (fun hc => h (Except.error.inj hc))
    | .error _, .ok _ => .isFalse (fun hc => Except.noConfusion hc)
    | .ok _, .error _ => .isFalse (fun hc => Except.noConfusion hc)
    | .ok x, .ok y =>
      if h : x = y then .isTrue (by rw [h]) else .isFalse (fun hc => h (Except.ok.inj hc))

/-- A concrete environment running platform `P` at version `2.9.2`, used to
exercise the model on the spec's staleness examples. -/
def testEnv : Env :=
  { environmentName := "prod"
    environmentId := "e-123"
    platformArn := "a:b:c:d:e:platform/P/2.9.2" }

/-- A concrete environment running platform `P` at version `2.11.10`. -/
def testEnvNew : Env :=
  { environmentName := "prod2"
    environmentId := "e-124"
    platformArn := "a:b:c:d:e:platform/P/2.11.10" }

/-- An environment whose platform reference is malformed (a single
colon-separated segment). -/
def badEnv : Env :=
  { environmentName := "bad"
    environmentId := "e-9"
    platformArn := "bad-arn" }

/-- A fully healthy world: one application, one environment, latest platform
version `2.11.10`, Slack token and channel configured, an account alias, and
a Slack service that accepts the message. -/
def testWorld : World :=
  { describeApplications := .ok ["orders-api"]
    describeEnvironments := fun _ => .ok [testEnv]
    listPlatformVersions := fun _ => .ok ["2.11.10"]
    getParameter := fun _ => .ok "xoxb-token"
    listAccountAliases := .ok ["rewind-prod"]
    osEnviron := fun k =>
      if k = "SLACK_TOKEN_SSM_PATH" then some "/ebn/token"
      else if k = "SLACK_CHANNEL" then some "#alerts" else none
    regionName := "us-east-1"
    slackError := none
    legacyCmp := fun _ _ => false }

/-- Variant of `testWorld` where the latest available version of every platform is
`2.9.2` (older than `testEnvNew`'s current version). -/
def testWorldOld : World :=
  { testWorld with listPlatformVersions := fun _ => .ok ["2.9.2"] }

/-- Variant of `testWorld` where the `list_platform_versions` query fails with a
`ClientError`. -/
def wLatestFail : World :=
  { testWorld with listPlatformVersions := fun _ => .error "AccessDenied" }

/-- Variant of `testWorld` where the `list_platform_versions` query returns an empty
`PlatformSummaryList`. -/
def wEmptyList : World :=
  { testWorld with listPlatformVersions := fun _ => .ok [] }

/-- Variant of `testWorld` where the `list_platform_versions` query returns two entries
(an ambiguous result). -/
def wMulti : World :=
  { testWorld with listPlatformVersions := fun _ => .ok ["2.11.10", "2.10.3"] }

/-- Events of `get_latest_platform_version` are only upstream queries and
log lines: in particular it never posts to Slack. -/
theorem slackPost_not_mem_get_latest (w : World) (c : List (String × String))
    (p : String) (m : SlackMessage) :
    Event.slackPost m ∉ (get_latest_platform_version w c p).1 := by
  unfold get_latest_platform_version
  cases hc : c.lookup p with
  | some v => simp
  | none =>
    cases hq : w.listPlatformVersions p with
    | error code => simp
    | ok l => cases l <;> simp

/-- The function `get_latest_platform_version` never reads `os.environ`. -/
theorem configRead_not_mem_get_latest (w : World) (c : List (String × String))
    (p k : String) :
    Event.configRead k ∉ (get_latest_platform_version w c p).1 := by
  unfold get_latest_platform_version
  cases hc : c.lookup p with
  | some v => simp
  | none =>
    cases hq : w.listPlatformVersions p with
    | error code => simp
    | ok l => cases l <;> simp

/-- Unfolding of `process_environment` on an environment whose platform
reference parses, whose latest version is available, and whose current
version is strictly older than the latest (both plain dotted-numeric): the
stale branch runs and the outcome is that of `notify_slack`. -/
theorem process_environment_stale (w : World) (app : String)
    (cache : List (String × String)) (e : Env) (pname cur : String)
    (evq : List Event) (lv : String) (cache' : List (String × String))
    (kl kc : List Nat)
    (hn : get_platform_name e.platformArn = .ok pname)
    (hv : get_platform_version e.platformArn = .ok cur)
    (hl : get_latest_platform_version w cache pname = (evq, .ok (some lv, cache')))
    (hkl : releaseKey lv = some kl) (hkc : releaseKey cur = some kc)
    (hstale : listLtNat kc kl = true) :
    process_environment w app cache e =
      ([Event.log ("EB environment found: " ++ e.environmentName ++ "(" ++ e.environmentId ++ ")"),
        Event.log ("Current platform: " ++ pname ++ " Platform version: " ++ cur)] ++ evq ++
        [Event.log ("Latest available version for " ++ pname ++ " is " ++ lv),
         Event.log ("A newer version (" ++ lv ++ ") is available for " ++ e.environmentName)] ++
        (notify_slack w app e.environmentName e.environmentId pname cur lv).1,
       match (notify_slack w app e.environmentName e.environmentId pname cur lv).2 with
       | .error err => .error err
       | .ok _ => .ok cache') := by
  have hgt : version_parse_gt w (some lv) cur = .ok true := by
    simp [version_parse_gt, hkl, hkc, hstale]
  rcases hN : notify_slack w app e.environmentName e.environmentId pname cur lv with ⟨evn, rn⟩
  cases rn <;>
    simp [process_environment, hn, hv, hl, hgt, hN, pyStr]

/-- Unfolding of `process_environment` when the latest version is available
and NOT strictly newer than the current version: the environment is reported
up to date and no Slack interaction happens. -/
theorem process_environment_not_stale (w : World) (app : String)
    (cache : List (String × String)) (e : Env) (pname cur : String)
    (evq : List Event) (lv : String) (cache' : List (String × String))
    (kl kc : List Nat)
    (hn : get_platform_name e.platformArn = .ok pname)
    (hv : get_platform_version e.platformArn = .ok cur)
    (hl : get_latest_platform_version w cache pname = (evq, .ok (some lv, cache')))
    (hkl : releaseKey lv = some kl) (hkc : releaseKey cur = some kc)
    (hstale : listLtNat kc kl = false) :
    process_environment w app cache e =
      ([Event.log ("EB environment found: " ++ e.environmentName ++ "(" ++ e.environmentId ++ ")"),
        Event.log ("Current platform: " ++ pname ++ " Platform version: " ++ cur)] ++ evq ++
        [Event.log ("Latest available version for " ++ pname ++ " is " ++ lv),
         Event.log ("Environment " ++ e.environmentName ++ " is running the latest version (" ++ lv ++ ")")],
       .ok cache') := by
  have hgt : version_parse_gt w (some lv) cur = .ok false := by
    simp [version_parse_gt, hkl, hkc, hstale]
  simp [process_environment, hn, hv, hl, hgt, pyStr]

/-- When the token path and channel are configured, the token is retrieved
and an account alias exists, `notify_slack` posts the message (whether or
not the Slack API then rejects it, the `chat_postMessage` call is made) and
returns normally. -/
theorem notify_slack_posts (w : World) (app en eid pn cv lv path chan tok al : String)
    (als : List String)
    (hpath : w.osEnviron "SLACK_TOKEN_SSM_PATH" = some path)
    (hchan : w.osEnviron "SLACK_CHANNEL" = some chan)
    (htok : w.getParameter path = .ok tok)
    (hal : w.listAccountAliases = .ok (al :: als)) :
    Event.slackPost
      { channel := chan
        consoleUrl := "https://console.aws.amazon.com/elasticbeanstalk/home?region=" ++ w.regionName ++ "#/environment/dashboard?applicationName=" ++ app ++ "&environmentId=" ++ eid
        application := app
        environment := en
        accountAlias := al
        region := w.regionName
        platformName := pn
        currentVersion := cv
        latestVersion := lv } ∈ (notify_slack w app en eid pn cv lv).1 ∧
    (notify_slack w app en eid pn cv lv).2 = .ok () := by
  cases hse : w.slackError <;>
    simp [notify_slack, hpath, hchan, get_slack_token, htok,
      get_aws_account_alias, hal, hse]

/-- When token retrieval fails with a `ClientError`, `notify_slack` logs the
failure and returns normally without posting. -/
theorem notify_slack_token_failure (w : World) (app en eid pn cv lv path chan code : String)
    (hpath : w.osEnviron "SLACK_TOKEN_SSM_PATH" = some path)
    (hchan : w.osEnviron "SLACK_CHANNEL" = some chan)
    (htok : w.getParameter path = .error code) :
    notify_slack w app en eid pn cv lv =
      ([Event.configRead "SLACK_TOKEN_SSM_PATH",
        Event.log ("Unable to retrieve parameter from parameter store: " ++ code),
        Event.configRead "SLACK_CHANNEL"], .ok ()) := by
  simp [notify_slack, hpath, hchan, get_slack_token, htok]

/-- When `SLACK_TOKEN_SSM_PATH` is not set, `notify_slack` raises
`KeyError('SLACK_TOKEN_SSM_PATH')`. -/
theorem notify_slack_no_path (w : World) (app en eid pn cv lv : String)
    (hpath : w.osEnviron "SLACK_TOKEN_SSM_PATH" = none) :
    notify_slack w app en eid pn cv lv =
      ([Event.configRead "SLACK_TOKEN_SSM_PATH"], .error (.keyError "SLACK_TOKEN_SSM_PATH")) := by
  simp [notify_slack, hpath]

/-- When `SLACK_TOKEN_SSM_PATH` is set but `SLACK_CHANNEL` is not,
`notify_slack` raises `KeyError('SLACK_CHANNEL')` (the channel is read
before checking whether a token was obtained). -/
theorem notify_slack_no_channel (w : World) (app en eid pn cv lv path : String)
    (hpath : w.osEnviron "SLACK_TOKEN_SSM_PATH" = some path)
    (hchan : w.osEnviron "SLACK_CHANNEL" = none) :
    (notify_slack w app en eid pn cv lv).2 = .error (.keyError "SLACK_CHANNEL") := by
  rcases ht : get_slack_token w path with ⟨evt, st⟩
  simp [notify_slack, hpath, hchan, ht]

/-- Claim C2 counterexample: on the spec's own example string, whose 6th
colon-segment `"Puma with Ruby 2.6 running on 64bit Amazon Linux/2.11.10"`
has only TWO slash-segments, the code extracts `"2.11.10"` as the platform
NAME (index 1) and raises an uncaught `IndexError` for the version (index
2); it does not extract the claimed name/version pair. -/
theorem claim2_counterexample :
    get_platform_name "x:x:x:x:x:Puma with Ruby 2.6 running on 64bit Amazon Linux/2.11.10" =
      .ok "2.11.10" ∧
    get_platform_version "x:x:x:x:x:Puma with Ruby 2.6 running on 64bit Amazon Linux/2.11.10" =
      .error .indexError ∧
    ¬ (get_platform_name "x:x:x:x:x:Puma with Ruby 2.6 running on 64bit Amazon Linux/2.11.10" =
        .ok "Puma with Ruby 2.6 running on 64bit Amazon Linux") :=
  ⟨rfl, rfl, by decide⟩

/-- Claim C2 (amended): for every platform reference string with at least 6
colon-separated segments whose 6th segment (index 5) has at least 3
slash-separated segments, the parser extracts the 2nd slash-segment of the
6th colon-segment as the platform name and the 3rd as the platform version.
(The spec's example string lacks the `platform/` prefix in its 6th segment;
a correct example is
`"x:x:x:x:x:platform/Puma with Ruby 2.6 running on 64bit Amazon Linux/2.11.10"`.) -/
theorem claim2_amended (arn seg nm ver : String)
    (h5 : (pySplit ':' arn)[5]? = some seg)
    (h1 : (pySplit '/' seg)[1]? = some nm)
    (h2 : (pySplit '/' seg)[2]? = some ver) :
    get_platform_name arn = .ok nm ∧ get_platform_version arn = .ok ver := by
  constructor
  · simp [get_platform_name, h5, h1]
  · simp [get_platform_version, h5, h2]

/-- Witness for claim C2 (amended), at the corrected example string. -/
theorem claim2_witness :
    get_platform_name "x:x:x:x:x:platform/Puma with Ruby 2.6 running on 64bit Amazon Linux/2.11.10" =
      .ok "Puma with Ruby 2.6 running on 64bit Amazon Linux" ∧
    get_platform_version "x:x:x:x:x:platform/Puma with Ruby 2.6 running on 64bit Amazon Linux/2.11.10" =
      .ok "2.11.10" :=
  claim2_amended "x:x:x:x:x:platform/Puma with Ruby 2.6 running on 64bit Amazon Linux/2.11.10"
    "platform/Puma with Ruby 2.6 running on 64bit Amazon Linux/2.11.10"
    "Puma with Ruby 2.6 running on 64bit Amazon Linux" "2.11.10" rfl rfl rfl

/-- Claim C3: a cache miss with a successful query issues exactly one
upstream `list_platform_versions` query and caches the result; the second
call for the same platform name is a hit that issues no query and returns
the cached value with the cache unchanged; and in general any cached entry
is returned as is, with no query and no cache change, for the rest of the
run. -/
theorem claim3_cache_single_query (w : World) (cache : List (String × String))
    (p v : String) (rest : List String)
    (hmiss : cache.lookup p = none)
    (hq : w.listPlatformVersions p = .ok (v :: rest)) :
    get_latest_platform_version w cache p =
      ([Event.platformQuery p], .ok (some v, (p, v) :: cache)) ∧
    get_latest_platform_version w ((p, v) :: cache) p =
      ([], .ok (some v, (p, v) :: cache)) ∧
    (∀ c2 v2, c2.lookup p = some v2 →
      get_latest_platform_version w c2 p = ([], .ok (some v2, c2))) := by
  refine ⟨?_, ?_, fun c2 v2 h2 => ?_⟩
  · simp [get_latest_platform_version, hmiss, hq]
  · simp [get_latest_platform_version, List.lookup]
  · simp [get_latest_platform_version, h2]

/-- Witness for claim C3: two successive lookups for platform `"P"` in
`testWorld`, starting from an empty cache. -/
theorem claim3_witness :
    get_latest_platform_version testWorld [] "P" =
      ([Event.platformQuery "P"], .ok (some "2.11.10", [("P", "2.11.10")])) ∧
    get_latest_platform_version testWorld [("P", "2.11.10")] "P" =
      ([], .ok (some "2.11.10", [("P", "2.11.10")])) :=
  ⟨(claim3_cache_single_query testWorld [] "P" "2.11.10" [] rfl rfl).1,
   (claim3_cache_single_query testWorld [] "P" "2.11.10" [] rfl rfl).2.1⟩

/-- Claim C4 counterexample: when the query returns two (ambiguous) results,
the lookup does NOT return "absent" with the cache unchanged — it returns
the first result and caches it. -/
theorem claim4_counterexample :
    (get_latest_platform_version wMulti [] "P").2 =
      .ok (some "2.11.10", [("P", "2.11.10")]) ∧
    ¬ ((get_latest_platform_version wMulti [] "P").2 = .ok (none, [])) :=
  ⟨rfl, by decide⟩

/-- Claim C4 (amended): on a cache miss, when the query fails with a
`ClientError` the lookup returns absent and leaves the cache unchanged; when
the query returns zero results an uncaught `IndexError` aborts the run; when
it returns one or more results the FIRST result is returned and cached. -/
theorem claim4_amended (w : World) (cache : List (String × String)) (p : String)
    (hmiss : cache.lookup p = none) :
    (∀ code, w.listPlatformVersions p = .error code →
       get_latest_platform_version w cache p =
         ([Event.platformQuery p,
           Event.log ("Unable to retrieve latest platform list: " ++ code)],
          .ok (none, cache))) ∧
    (w.listPlatformVersions p = .ok [] →
       get_latest_platform_version w cache p =
         ([Event.platformQuery p], .error .indexError)) ∧
    (∀ v rest, w.listPlatformVersions p = .ok (v :: rest) →
       get_latest_platform_version w cache p =
         ([Event.platformQuery p], .ok (some v, (p, v) :: cache))) := by
  refine ⟨fun code hc => ?_, fun h0 => ?_, fun v rest hv => ?_⟩ <;>
    simp [get_latest_platform_version, hmiss, *]

/-- Claim C1: for an environment whose platform reference parses, whose
latest platform version is available (both versions plain dotted-numeric)
and for which the notification path is serviceable (token path and channel
configured, token retrieved, an account alias present), a Slack message is
posted if and only if the latest version is strictly greater than the
current one under component-wise numeric ordering of the release
components. -/
theorem claim1_post_iff_newer (w : World) (app : String)
    (cache : List (String × String)) (e : Env) (pname cur : String)
    (evq : List Event) (lv : String) (cache' : List (String × String))
    (kl kc : List Nat) (path chan tok al : String) (als : List String)
    (hn : get_platform_name e.platformArn = .ok pname)
    (hv : get_platform_version e.platformArn = .ok cur)
    (hl : get_latest_platform_version w cache pname = (evq, .ok (some lv, cache')))
    (hkl : releaseKey lv = some kl) (hkc : releaseKey cur = some kc)
    (hpath : w.osEnviron "SLACK_TOKEN_SSM_PATH" = some path)
    (hchan : w.osEnviron "SLACK_CHANNEL" = some chan)
    (htok : w.getParameter path = .ok tok)
    (hal : w.listAccountAliases = .ok (al :: als)) :
    (∃ m, Event.slackPost m ∈ (process_environment w app cache e).1) ↔
      listLtNat kc kl = true := by
  have hnoq : ∀ m, Event.slackPost m ∉ evq := by
    intro m
    have h2 := slackPost_not_mem_get_latest w cache pname m
    rw [hl] at h2
    exact h2
  cases hlt : listLtNat kc kl with
  | false =>
    rw [process_environment_not_stale w app cache e pname cur evq lv cache' kl kc
      hn hv hl hkl hkc hlt]
    simp only [Bool.false_eq_true, iff_false, not_exists]
    intro m hm
    simp only [List.mem_append, List.mem_cons, List.not_mem_nil, or_false] at hm
    rcases hm with (hm | hm) | hm <;> simp_all
  | true =>
    simp only [iff_true]
    rw [process_environment_stale w app cache e pname cur evq lv cache' kl kc
      hn hv hl hkl hkc hlt]
    obtain ⟨hmem, -⟩ := notify_slack_posts w app e.environmentName e.environmentId
      pname cur lv path chan tok al als hpath hchan htok hal
    exact ⟨_, List.mem_append.mpr (Or.inr hmem)⟩

/-- Witness for claim C1, exercising the three staleness examples from the
spec: current `2.9.2` vs latest `2.11.10` is reported (component-wise
numeric, not lexical), equal versions are not, and a latest older than the
current is not. -/
theorem claim1_witness :
    (∃ m, Event.slackPost m ∈ (process_environment testWorld "orders-api" [] testEnv).1) ∧
    ¬ (∃ m, Event.slackPost m ∈ (process_environment testWorld "orders-api" [] testEnvNew).1) ∧
    ¬ (∃ m, Event.slackPost m ∈ (process_environment testWorldOld "orders-api" [] testEnvNew).1) := by
  refine ⟨?_, fun h => ?_, fun h => ?_⟩
  · exact (claim1_post_iff_newer testWorld "orders-api" [] testEnv "P" "2.9.2"
      [Event.platformQuery "P"] "2.11.10" [("P", "2.11.10")] [2, 11, 10] [2, 9, 2]
      "/ebn/token" "#alerts" "xoxb-token" "rewind-prod" []
      rfl rfl rfl rfl rfl rfl rfl rfl rfl).mpr (by decide)
  · exact absurd ((claim1_post_iff_newer testWorld "orders-api" [] testEnvNew "P" "2.11.10"
      [Event.platformQuery "P"] "2.11.10" [("P", "2.11.10")] [2, 11, 10] [2, 11, 10]
      "/ebn/token" "#alerts" "xoxb-token" "rewind-prod" []
      rfl rfl rfl rfl rfl rfl rfl rfl rfl).mp h) (by decide)
  · exact absurd ((claim1_post_iff_newer testWorldOld "orders-api" [] testEnvNew "P" "2.11.10"
      [Event.platformQuery "P"] "2.9.2" [("P", "2.9.2")] [2, 9, 2] [2, 11, 10]
      "/ebn/token" "#alerts" "xoxb-token" "rewind-prod" []
      rfl rfl rfl rfl rfl rfl rfl rfl rfl).mp h) (by decide)

/-- Witness for claim C4 (amended): the three query outcomes at concrete
worlds. -/
theorem claim4_witness :
    get_latest_platform_version wLatestFail [] "P" =
      ([Event.platformQuery "P",
        Event.log "Unable to retrieve latest platform list: AccessDenied"],
       .ok (none, [])) ∧
    get_latest_platform_version wEmptyList [] "P" =
      ([Event.platformQuery "P"], .error .indexError) ∧
    get_latest_platform_version wMulti [] "P" =
      ([Event.platformQuery "P"], .ok (some "2.11.10", [("P", "2.11.10")])) :=
  ⟨(claim4_amended wLatestFail [] "P" rfl).1 "AccessDenied" rfl,
   (claim4_amended wEmptyList [] "P" rfl).2.1 rfl,
   (claim4_amended wMulti [] "P" rfl).2.2 "2.11.10" ["2.10.3"] rfl⟩

/-- A second environment in the same application, used to observe whether
the scan continues past a failure. -/
def testEnv2 : Env :=
  { environmentName := "staging"
    environmentId := "e-456"
    platformArn := "a:b:c:d:e:platform/P/2.9.2" }

/-- Claim C5 evaluation: when the latest-version lookup fails (here with a
`ClientError`), `get_latest_platform_version` returns `None`, and
`lambda_handler` then evaluates `version.parse(None)`, which raises an
uncaught `TypeError`.  The environment is NOT skipped: the run aborts, the
second environment of the list is never scanned, and no "skip" log is
emitted (only the lookup-failure log and the "Latest available version ...
is None" print). -/
theorem claim5_crash_on_missing_latest :
    process_environments wLatestFail "orders-api" [] [testEnv, testEnv2] =
      ([Event.log "EB environment found: prod(e-123)",
        Event.log "Current platform: P Platform version: 2.9.2",
        Event.platformQuery "P",
        Event.log "Unable to retrieve latest platform list: AccessDenied",
        Event.log "Latest available version for P is None"],
       .error .typeError) := rfl

/-- Claim C6: if listing environments fails for application `A` with a
`ClientError` but succeeds for `B`, the whole two-application run equals
`A`'s two log lines followed by exactly the run over `B` alone — so `A` is
skipped with a log, every environment of `B` is scanned exactly as it would
have been, and any Slack post made for `B` alone is also made in the
combined run. -/
theorem claim6_sibling_isolation (w : World) (cache : List (String × String))
    (A B code : String)
    (hA : w.describeEnvironments A = .error code) :
    process_applications w cache [A, B] =
      (Event.log ("EB application found: " ++ A) ::
        Event.log ("Unable to obtain list of EB environments: " ++ code) ::
        (process_applications w cache [B]).1,
       (process_applications w cache [B]).2) ∧
    (∀ m, Event.slackPost m ∈ (process_applications w cache [B]).1 →
       Event.slackPost m ∈ (process_applications w cache [A, B]).1) := by
  have h1 : process_application w cache A =
      ([Event.log ("EB application found: " ++ A),
        Event.log ("Unable to obtain list of EB environments: " ++ code)], .ok cache) := by
    simp [process_application, hA]
  have hEq : process_applications w cache [A, B] =
      (Event.log ("EB application found: " ++ A) ::
        Event.log ("Unable to obtain list of EB environments: " ++ code) ::
        (process_applications w cache [B]).1,
       (process_applications w cache [B]).2) := by
    rcases hB : process_application w cache B with ⟨evB, rB⟩
    cases rB <;> simp [process_applications, h1, hB]
  refine ⟨hEq, fun m hm => ?_⟩
  rw [hEq]
  simp [hm]

/-- A world with applications `A` (whose environment listing fails) and `B`
(whose environment listing succeeds with one stale environment). -/
def wTwoApps : World :=
  { testWorld with
    describeApplications := .ok ["A", "B"]
    describeEnvironments := fun a =>
      if a = "A" then .error "Throttling" else .ok [testEnv] }

/-- The Slack message the scan sends for `testEnv` under application `B` in
`wTwoApps`. -/
def msgB : SlackMessage :=
  { channel := "#alerts"
    consoleUrl := "https://console.aws.amazon.com/elasticbeanstalk/home?region=us-east-1#/environment/dashboard?applicationName=B&environmentId=e-123"
    application := "B"
    environment := "prod"
    accountAlias := "rewind-prod"
    region := "us-east-1"
    platformName := "P"
    currentVersion := "2.9.2"
    latestVersion := "2.11.10" }

/-- Witness for claim C6: in `wTwoApps`, application `A`'s failure is logged
and skipped, and `B`'s stale environment is still posted to Slack. -/
theorem claim6_witness :
    process_applications wTwoApps [] ["A", "B"] =
      (Event.log "EB application found: A" ::
        Event.log "Unable to obtain list of EB environments: Throttling" ::
        (process_applications wTwoApps [] ["B"]).1,
       (process_applications wTwoApps [] ["B"]).2) ∧
    Event.slackPost msgB ∈ (process_applications wTwoApps [] ["A", "B"]).1 :=
  ⟨(claim6_sibling_isolation wTwoApps [] "A" "B" "Throttling" rfl).1,
   (claim6_sibling_isolation wTwoApps [] "A" "B" "Throttling" rfl).2 msgB (by decide)⟩

/-- Variant of `testWorld` where the SSM parameter holding the Slack token cannot be
retrieved. -/
def wNoSecret : World :=
  { testWorld with getParameter := fun _ => .error "ParameterNotFound" }

/-- Claim C7: for a stale environment, when retrieving the Slack token from
the parameter store fails (the retrieval returns no value), no Slack post is
made and the environment's processing ends normally (`.ok`), so the scan
continues with the remaining environments. -/
theorem claim7_secret_failure_skips_post (w : World) (app : String)
    (cache : List (String × String)) (e : Env) (pname cur : String)
    (evq : List Event) (lv : String) (cache' : List (String × String))
    (kl kc : List Nat) (path chan code : String)
    (hn : get_platform_name e.platformArn = .ok pname)
    (hv : get_platform_version e.platformArn = .ok cur)
    (hl : get_latest_platform_version w cache pname = (evq, .ok (some lv, cache')))
    (hkl : releaseKey lv = some kl) (hkc : releaseKey cur = some kc)
    (hstale : listLtNat kc kl = true)
    (hpath : w.osEnviron "SLACK_TOKEN_SSM_PATH" = some path)
    (hchan : w.osEnviron "SLACK_CHANNEL" = some chan)
    (htok : w.getParameter path = .error code) :
    (process_environment w app cache e).2 = .ok cache' ∧
    (∀ m, Event.slackPost m ∉ (process_environment w app cache e).1) := by
  have hnot := notify_slack_token_failure w app e.environmentName e.environmentId
    pname cur lv path chan code hpath hchan htok
  rw [process_environment_stale w app cache e pname cur evq lv cache' kl kc
    hn hv hl hkl hkc hstale, hnot]
  refine ⟨rfl, fun m hm => ?_⟩
  have hnoq := slackPost_not_mem_get_latest w cache pname m
  rw [hl] at hnoq
  simp only [List.mem_append, List.mem_cons, List.not_mem_nil, or_false] at hm
  rcases hm with (hm | hm) | hm <;> simp_all

/-- Witness for claim C7: with the parameter store failing, the stale
environment is processed to completion with no Slack post (in particular the
message that `testWorld` would have posted is absent). -/
theorem claim7_witness :
    (process_environment wNoSecret "orders-api" [] testEnv).2 = .ok [("P", "2.11.10")] ∧
    Event.slackPost
      { channel := "#alerts"
        consoleUrl := "https://console.aws.amazon.com/elasticbeanstalk/home?region=us-east-1#/environment/dashboard?applicationName=orders-api&environmentId=e-123"
        application := "orders-api"
        environment := "prod"
        accountAlias := "rewind-prod"
        region := "us-east-1"
        platformName := "P"
        currentVersion := "2.9.2"
        latestVersion := "2.11.10" } ∉ (process_environment wNoSecret "orders-api" [] testEnv).1 :=
  ⟨(claim7_secret_failure_skips_post wNoSecret "orders-api" [] testEnv "P" "2.9.2"
      [Event.platformQuery "P"] "2.11.10" [("P", "2.11.10")] [2, 11, 10] [2, 9, 2]
      "/ebn/token" "#alerts" "ParameterNotFound"
      rfl rfl rfl rfl rfl rfl rfl rfl rfl).1,
   (claim7_secret_failure_skips_post wNoSecret "orders-api" [] testEnv "P" "2.9.2"
      [Event.platformQuery "P"] "2.11.10" [("P", "2.11.10")] [2, 11, 10] [2, 9, 2]
      "/ebn/token" "#alerts" "ParameterNotFound"
      rfl rfl rfl rfl rfl rfl rfl rfl rfl).2 _⟩

/-- Variant of `testWorld` where the IAM `list_account_aliases` call fails with a
`ClientError`. -/
def wAliasFail : World :=
  { testWorld with listAccountAliases := .error "AccessDenied" }

/-- Variant of `testWorld` where the account has no aliases. -/
def wAliasEmpty : World :=
  { testWorld with listAccountAliases := .ok [] }

/-- Claim C8 evaluation: for a stale environment whose notification is
attempted, when the `list_account_aliases` call fails the helper returns
`None` and concatenating it into the message text raises an uncaught
`TypeError`; when the call succeeds with no aliases, `[0]` raises an
uncaught `IndexError`.  Either way the run aborts and no Slack post is made
— the notification does NOT proceed with a blank alias. -/
theorem claim8_crash_on_missing_alias :
    process_environment wAliasFail "orders-api" [] testEnv =
      ([Event.log "EB environment found: prod(e-123)",
        Event.log "Current platform: P Platform version: 2.9.2",
        Event.platformQuery "P",
        Event.log "Latest available version for P is 2.11.10",
        Event.log "A newer version (2.11.10) is available for prod",
        Event.configRead "SLACK_TOKEN_SSM_PATH",
        Event.configRead "SLACK_CHANNEL",
        Event.log "Posting notification to Slack",
        Event.log "Unable to get current aws account ID: AccessDenied"],
       .error .typeError) ∧
    (process_environment wAliasEmpty "orders-api" [] testEnv).2 = .error .indexError :=
  ⟨rfl, rfl⟩

/-- Claim C9 counterexample: with a malformed platform reference (a single
colon-segment), `lambda_handler` does not skip the environment: the
extraction raises an uncaught `IndexError`, the raw identifier is never
logged (the only event is the "environment found" line), and the remaining
environments are never scanned. -/
theorem claim9_counterexample :
    process_environments testWorld "orders-api" [] [badEnv, testEnv] =
      ([Event.log "EB environment found: bad(e-9)"], .error .indexError) ∧
    Event.log "EB environment found: prod(e-123)" ∉
      (process_environments testWorld "orders-api" [] [badEnv, testEnv]).1 :=
  ⟨rfl, by decide⟩

/-- Claim C9 (amended): for every environment whose platform reference is
malformed (so that name extraction, or name extraction then version
extraction, raises), the uncaught `IndexError` propagates out of the scan:
the only event is the "environment found" log (the raw identifier is not
logged) and the remaining environments are not processed. -/
theorem claim9_amended (w : World) (app : String) (cache : List (String × String))
    (e : Env) (rest : List Env) (err : PyError)
    (h : get_platform_name e.platformArn = .error err ∨
         ((∃ n, get_platform_name e.platformArn = .ok n) ∧
          get_platform_version e.platformArn = .error err)) :
    process_environments w app cache (e :: rest) =
      ([Event.log ("EB environment found: " ++ e.environmentName ++ "(" ++ e.environmentId ++ ")")],
       .error err) := by
  rcases h with h | ⟨⟨n, hn⟩, hv⟩
  · simp [process_environments, process_environment, h]
  · simp [process_environments, process_environment, hn, hv]

/-- Witness for claim C9 (amended), at the malformed reference
`"bad-arn"`. -/
theorem claim9_witness :
    process_environments testWorld "orders-api" [] [badEnv, testEnv] =
      ([Event.log "EB environment found: bad(e-9)"], .error .indexError) :=
  claim9_amended testWorld "orders-api" [] badEnv [testEnv] .indexError (Or.inl rfl)

/-- If one environment's processing reads any `os.environ` key, the stale
branch was entered: its events include the "A newer version ... is
available" log for that environment. -/
theorem configRead_mem_process_environment (w : World) (app : String)
    (cache : List (String × String)) (e : Env) (k : String)
    (h : Event.configRead k ∈ (process_environment w app cache e).1) :
    ∃ lv, Event.log ("A newer version (" ++ lv ++ ") is available for " ++ e.environmentName) ∈
      (process_environment w app cache e).1 := by
  simp only [process_environment] at h ⊢
  cases hn : get_platform_name e.platformArn with
  | error err => rw [hn] at h; simp at h
  | ok pname =>
    rw [hn] at h
    simp only [] at h ⊢
    cases hv : get_platform_version e.platformArn with
    | error err => rw [hv] at h; simp at h
    | ok cur =>
      rw [hv] at h
      simp only [] at h ⊢
      rcases hl : get_latest_platform_version w cache pname with ⟨evq, rq⟩
      rw [hl] at h
      have hnoq : Event.configRead k ∉ evq := by
        have h2 := configRead_not_mem_get_latest w cache pname k
        rw [hl] at h2
        exact h2
      cases rq with
      | error err => simp at h; simp_all
      | ok pair =>
        rcases pair with ⟨latest, cache'⟩
        simp only [] at h ⊢
        cases hgt : version_parse_gt w latest cur with
        | error err => rw [hgt] at h; simp at h; simp_all
        | ok b =>
          rw [hgt] at h
          cases b with
          | false => simp at h; simp_all
          | true =>
            simp only [] at h ⊢
            rcases hN : notify_slack w app e.environmentName e.environmentId pname cur
              (pyStr latest) with ⟨evn, rn⟩
            rw [hN] at h
            cases rn <;> exact ⟨pyStr latest, by simp⟩

/-- Lift of `configRead_mem_process_environment` over one application's
environment list. -/
theorem configRead_mem_process_environments (w : World) (app : String) :
    ∀ (envs : List Env) (cache : List (String × String)) (k : String),
      Event.configRead k ∈ (process_environments w app cache envs).1 →
      ∃ lv en, Event.log ("A newer version (" ++ lv ++ ") is available for " ++ en) ∈
        (process_environments w app cache envs).1 := by
  intro envs
  induction envs with
  | nil => intro cache k h; simp [process_environments] at h
  | cons e rest ih =>
    intro cache k h
    simp only [process_environments] at h ⊢
    rcases hP : process_environment w app cache e with ⟨ev, r⟩
    rw [hP] at h
    cases r with
    | error err =>
      simp only [] at h ⊢
      obtain ⟨lv, hm⟩ := configRead_mem_process_environment w app cache e k
        (by rw [hP]; exact h)
      rw [hP] at hm
      exact ⟨lv, e.environmentName, hm⟩
    | ok cache' =>
      simp only [] at h ⊢
      rcases hR : process_environments w app cache' rest with ⟨ev', r'⟩
      rw [hR] at h
      rcases List.mem_append.mp h with h1 | h1
      · obtain ⟨lv, hm⟩ := configRead_mem_process_environment w app cache e k
          (by rw [hP]; exact h1)
        rw [hP] at hm
        exact ⟨lv, e.environmentName, List.mem_append.mpr (Or.inl hm)⟩
      · obtain ⟨lv, en, hm⟩ := ih cache' k (by rw [hR]; exact h1)
        rw [hR] at hm
        exact ⟨lv, en, List.mem_append.mpr (Or.inr hm)⟩

/-- Lift of the previous lemma over one application. -/
theorem configRead_mem_process_application (w : World)
    (cache : List (String × String)) (a k : String)
    (h : Event.configRead k ∈ (process_application w cache a).1) :
    ∃ lv en, Event.log ("A newer version (" ++ lv ++ ") is available for " ++ en) ∈
      (process_application w cache a).1 := by
  simp only [process_application] at h ⊢
  cases hd : w.describeEnvironments a with
  | error code => rw [hd] at h; simp at h
  | ok envs =>
    rw [hd] at h
    simp only [] at h ⊢
    rcases hE : process_environments w a cache envs with ⟨ev, r⟩
    rw [hE] at h
    rcases List.mem_cons.mp h with h1 | h1
    · cases h1
    · obtain ⟨lv, en, hm⟩ := configRead_mem_process_environments w a envs cache k
        (by rw [hE]; exact h1)
      rw [hE] at hm
      exact ⟨lv, en, List.mem_cons.mpr (Or.inr hm)⟩

/-- Lift over the whole application list. -/
theorem configRead_mem_process_applications (w : World) :
    ∀ (apps : List String) (cache : List (String × String)) (k : String),
      Event.configRead k ∈ (process_applications w cache apps).1 →
      ∃ lv en, Event.log ("A newer version (" ++ lv ++ ") is available for " ++ en) ∈
        (process_applications w cache apps).1 := by
  intro apps
  induction apps with
  | nil => intro cache k h; simp [process_applications] at h
  | cons a rest ih =>
    intro cache k h
    simp only [process_applications] at h ⊢
    rcases hP : process_application w cache a with ⟨ev, r⟩
    rw [hP] at h
    cases r with
    | error err =>
      simp only [] at h ⊢
      obtain ⟨lv, en, hm⟩ := configRead_mem_process_application w cache a k
        (by rw [hP]; exact h)
      rw [hP] at hm
      exact ⟨lv, en, hm⟩
    | ok cache' =>
      simp only [] at h ⊢
      rcases hR : process_applications w cache' rest with ⟨ev', r'⟩
      rw [hR] at h
      rcases List.mem_append.mp h with h1 | h1
      · obtain ⟨lv, en, hm⟩ := configRead_mem_process_application w cache a k
          (by rw [hP]; exact h1)
        rw [hP] at hm
        exact ⟨lv, en, List.mem_append.mpr (Or.inl hm)⟩
      · obtain ⟨lv, en, hm⟩ := ih cache' k (by rw [hR]; exact h1)
        rw [hR] at hm
        exact ⟨lv, en, List.mem_append.mpr (Or.inr hm)⟩

/-- Variant of `testWorld` where with no configuration at all in the process
environment. -/
def wNoConfig : World :=
  { testWorld with osEnviron := fun _ => none }

/-- Variant of `testWorld` where with only `SLACK_TOKEN_SSM_PATH` configured. -/
def wNoChannel : World :=
  { testWorld with
    osEnviron := fun k =>
      if k = "SLACK_TOKEN_SSM_PATH" then some "/ebn/token" else none }

/-- Claim C10: (i) whenever a run reads any `os.environ` key, some "A newer
version ... is available" log was emitted, i.e. a run that finds no stale
environment never consults `SLACK_TOKEN_SSM_PATH` or `SLACK_CHANNEL`;
(ii) a run that finds a stale environment with `SLACK_TOKEN_SSM_PATH` unset
aborts the remaining scan with an uncaught `KeyError('SLACK_TOKEN_SSM_PATH')`;
(iii) with the path set but `SLACK_CHANNEL` unset it aborts with
`KeyError('SLACK_CHANNEL')`. -/
theorem claim10_config_after_stale :
    (∀ (w : World) (k : String),
      Event.configRead k ∈ (lambda_handler w).1 →
      ∃ lv en, Event.log ("A newer version (" ++ lv ++ ") is available for " ++ en) ∈
        (lambda_handler w).1) ∧
    (∀ (w : World) (app : String) (cache : List (String × String)) (e : Env)
      (rest : List Env) (pname cur : String) (evq : List Event) (lv : String)
      (cache' : List (String × String)) (kl kc : List Nat),
      get_platform_name e.platformArn = .ok pname →
      get_platform_version e.platformArn = .ok cur →
      get_latest_platform_version w cache pname = (evq, .ok (some lv, cache')) →
      releaseKey lv = some kl → releaseKey cur = some kc → listLtNat kc kl = true →
      w.osEnviron "SLACK_TOKEN_SSM_PATH" = none →
      (process_environments w app cache (e :: rest)).2 =
        .error (.keyError "SLACK_TOKEN_SSM_PATH")) ∧
    (∀ (w : World) (app : String) (cache : List (String × String)) (e : Env)
      (rest : List Env) (pname cur : String) (evq : List Event) (lv : String)
      (cache' : List (String × String)) (kl kc : List Nat) (path : String),
      get_platform_name e.platformArn = .ok pname →
      get_platform_version e.platformArn = .ok cur →
      get_latest_platform_version w cache pname = (evq, .ok (some lv, cache')) →
      releaseKey lv = some kl → releaseKey cur = some kc → listLtNat kc kl = true →
      w.osEnviron "SLACK_TOKEN_SSM_PATH" = some path →
      w.osEnviron "SLACK_CHANNEL" = none →
      (process_environments w app cache (e :: rest)).2 =
        .error (.keyError "SLACK_CHANNEL")) := by
  refine ⟨fun w k h => ?_, ?_, ?_⟩
  · simp only [lambda_handler] at h ⊢
    cases ha : w.describeApplications with
    | error code => rw [ha] at h; simp at h
    | ok apps =>
      rw [ha] at h
      simp only [] at h ⊢
      rcases hA : process_applications w [] apps with ⟨ev, r⟩
      rw [hA] at h
      cases r with
      | error err =>
        simp only [] at h ⊢
        obtain ⟨lv, en, hm⟩ := configRead_mem_process_applications w apps [] k
          (by rw [hA]; exact h)
        rw [hA] at hm
        exact ⟨lv, en, hm⟩
      | ok u =>
        simp only [] at h ⊢
        obtain ⟨lv, en, hm⟩ := configRead_mem_process_applications w apps [] k
          (by rw [hA]; exact h)
        rw [hA] at hm
        exact ⟨lv, en, hm⟩
  · intro w app cache e rest pname cur evq lv cache' kl kc hn hv hl hkl hkc hstale hpath
    have hr : (process_environment w app cache e).2 =
        .error (.keyError "SLACK_TOKEN_SSM_PATH") := by
      rw [process_environment_stale w app cache e pname cur evq lv cache' kl kc
        hn hv hl hkl hkc hstale,
        notify_slack_no_path w app e.environmentName e.environmentId pname cur lv hpath]
    simp only [process_environments]
    rcases hP : process_environment w app cache e with ⟨ev, r⟩
    rw [hP] at hr
    simp only [] at hr
    rw [hr]
  · intro w app cache e rest pname cur evq lv cache' kl kc path hn hv hl hkl hkc hstale
      hpath hchan
    have hr : (process_environment w app cache e).2 =
        .error (.keyError "SLACK_CHANNEL") := by
      have hsnd := congrArg Prod.snd
        (process_environment_stale w app cache e pname cur evq lv cache' kl kc
          hn hv hl hkl hkc hstale)
      rw [hsnd,
        notify_slack_no_channel w app e.environmentName e.environmentId pname cur lv
          path hpath hchan]
    simp only [process_environments]
    rcases hP : process_environment w app cache e with ⟨ev, r⟩
    rw [hP] at hr
    simp only [] at hr
    rw [hr]

/-- Witness for claim C10: in `testWorld` the stale environment makes the
run read the configuration (so a stale log exists); with no configuration
the scan aborts with `KeyError('SLACK_TOKEN_SSM_PATH')`; with only the token
path configured it aborts with `KeyError('SLACK_CHANNEL')`. -/
theorem claim10_witness :
    (∃ lv en, Event.log ("A newer version (" ++ lv ++ ") is available for " ++ en) ∈
      (lambda_handler testWorld).1) ∧
    (process_environments wNoConfig "orders-api" [] [testEnv, testEnv2]).2 =
      .error (.keyError "SLACK_TOKEN_SSM_PATH") ∧
    (process_environments wNoChannel "orders-api" [] [testEnv, testEnv2]).2 =
      .error (.keyError "SLACK_CHANNEL") :=
  ⟨claim10_config_after_stale.1 testWorld "SLACK_TOKEN_SSM_PATH" (by decide),
   claim10_config_after_stale.2.1 wNoConfig "orders-api" [] testEnv [testEnv2]
     "P" "2.9.2" [Event.platformQuery "P"] "2.11.10" [("P", "2.11.10")]
     [2, 11, 10] [2, 9, 2] rfl rfl rfl rfl rfl rfl rfl,
   claim10_config_after_stale.2.2 wNoChannel "orders-api" [] testEnv [testEnv2]
     "P" "2.9.2" [Event.platformQuery "P"] "2.11.10" [("P", "2.11.10")]
     [2, 11, 10] [2, 9, 2] "/ebn/token" rfl rfl rfl rfl rfl rfl rfl rfl⟩

end EBNotifier
